import Mathlib

/-!
Verification development for the libgavran pager core.

The definitions below are a shallow embedding of the C sources:
* `src/src/bitmap.c` — the free-range bitmap search
  (`find_range_once`, `find_next_range`, `find_smallest_nearby_range`,
  `find_free_range_in_bitmap`);
* `src/ch05/ch05.md` — page-metadata placement (`get_metadata_page_offset`),
  the metadata updates of `allocate_page`, and `free_page`;
* `src/unnamed/part_000` — the thread-local error channel
  (`push_error_internal`);
* `src/ch02/ch02.md` — `close_file`.

Machine integers are represented as `Nat` with an explicit `% 2^64` at the
two spots where the C intentionally overflows (`previous_set_bit + 1` and
`previous_set_bit + size_required`, both flagged "intentionally overflowing
here" in the source).  Word-index arithmetic such as `(index + 1) * 64` is
kept unbounded: it cannot wrap for any bitmap that fits in an address space.
C loops are written as structural recursion on an explicit fuel; every call
site passes a fuel that a strictly increasing measure shows is never
exhausted, so the fuel-0 fallback branches are unreachable.
-/

namespace Gavran

/-- `2^64`, the modulus of `uint64_t` / `size_t` arithmetic. -/
def U64 : Nat := 2 ^ 64

/-- `ULONG_MAX` = `SIZE_MAX` = `2^64 - 1`. -/
def U64M : Nat := U64 - 1

/-- `struct selected_range` from `bitmap.c`. -/
structure selected_range where
  position : Nat
  size_available : Nat
deriving Repr, DecidableEq

/-- `struct range_finder` from `bitmap.c`.  The C `uint64_t *bitmap` plus
`bitmap_size` pair is a `List Nat` of 64-bit words plus its stated size. -/
structure range_finder where
  bitmap : List Nat
  bitmap_size : Nat
  size_required : Nat
  index : Nat
  selection : selected_range
  current : Nat
  current_set_bit : Nat
  previous_set_bit : Nat
deriving Repr, DecidableEq

/-- `__builtin_ctzl`: trailing-zero count of a nonzero 64-bit word.  The C
intrinsic is undefined at 0; callers guard `bitset != 0`.  Fuel 64 suffices
for any argument `< 2^64`. -/
def ctzAux : Nat → Nat → Nat
  | 0, _ => 0
  | fuel + 1, n => if n % 2 = 1 then 0 else ctzAux fuel (n / 2) + 1

/-- Trailing-zero count of a 64-bit word (see `ctzAux`). -/
def ctz (n : Nat) : Nat := ctzAux 64 n

/-- `handle_zero_word` from `bitmap.c` lines 36-48: the clear run extends to
the end of word `index`. -/
def handle_zero_word (r : range_finder) : Bool × range_finder :=
  let r := { r with current_set_bit := (r.index + 1) * 64 }
  if (r.previous_set_bit + r.size_required) % U64 < r.current_set_bit then
    let pos := (r.previous_set_bit + 1) % U64
    (true, { r with selection := ⟨pos, r.current_set_bit - pos⟩ })
  else
    (false, r)

/-- The `while (bitset != 0)` walk of `find_range_once` (`bitmap.c` lines
66-84): visit the set bits of the local copy `bitset` from lowest to
highest, clearing each with `bitset ^= (bitset & -bitset)`.  Each step
clears one set bit, so fuel 64 is never exhausted for words `< 2^64`. -/
def find_range_once_walk : Nat → Nat → range_finder → Bool × range_finder
  | 0, _, r => (false, r)
  | fuel + 1, bitset, r =>
    if bitset == 0 then handle_zero_word r
    else
      let rb := ctz bitset
      let cs := r.index * 64 + rb
      let r := { r with current_set_bit := cs }
      if (r.previous_set_bit + r.size_required) % U64 < cs then
        let pos := (r.previous_set_bit + 1) % U64
        (true, { r with selection := ⟨pos, cs - pos⟩, previous_set_bit := cs })
      else
        find_range_once_walk fuel (bitset - 2 ^ rb) { r with previous_set_bit := cs }

/-- `find_range_once` from `bitmap.c` lines 50-85. -/
def find_range_once (r : range_finder) : Bool × range_finder :=
  if r.current == U64M then
    -- all bits are set, can skip whole thing
    (false, { r with previous_set_bit := (r.index + 1) * 64 - 1 })
  else if r.current == 0 then
    handle_zero_word r
  else
    find_range_once_walk 64 r.current r

/-- `init_range` from `bitmap.c` lines 87-97.  The C leaves `selection` and
`current_set_bit` uninitialised; they are never read before being written,
so they are zero-initialised here. -/
def init_range (bitmap : List Nat) (bitmap_size size_required : Nat) : range_finder :=
  { bitmap := bitmap
    bitmap_size := bitmap_size
    size_required := size_required
    index := 0
    selection := ⟨0, 0⟩
    current := bitmap.getD 0 0
    current_set_bit := 0
    previous_set_bit := U64M }

/-- Body of the `do { ... } while (true)` loop of `find_next_range`
(`bitmap.c` lines 99-133).  `index` strictly increases at every recursive
call, so fuel `bitmap_size + 1` is never exhausted. -/
def find_next_range_aux : Nat → range_finder → Bool × range_finder
  | 0, r => (false, r)
  | fuel + 1, r =>
    let p := find_range_once r
    let r := p.2
    if p.1 then
      if r.current_set_bit % 64 != 0 then
        -- mask the already found item
        (true, { r with current := r.current ||| (2 ^ (r.current_set_bit % 64) - 1) })
      else if r.index + 1 < r.bitmap_size then
        -- run out in the current word, but maybe we have more in the next?
        find_next_range_aux fuel
          { r with index := r.index + 1, current := r.bitmap.getD (r.index + 1) 0 }
      else
        (true, { r with current := U64M })
    else
      let r := { r with index := r.index + 1 }
      if r.bitmap_size ≤ r.index then (false, r)
      else find_next_range_aux fuel { r with current := r.bitmap.getD r.index 0 }

/-- `find_next_range` from `bitmap.c` lines 99-133. -/
def find_next_range (r : range_finder) : Bool × range_finder :=
  find_next_range_aux (r.bitmap_size + 1) r

/-- `MAX_DISTANCE_TO_SEARCH_BEST_MATCH` from `bitmap.c` line 135. -/
def MAX_DISTANCE_TO_SEARCH_BEST_MATCH : Nat := 64

/-- The `while (find_next_range(range))` loop of `find_smallest_nearby_range`
(`bitmap.c` lines 137-167), with the local best candidate `acc` (the C
local `current`) made explicit.  Each successful `find_next_range` either
advances `index` or strictly adds set bits to `current` (it masks a bit the
guard proved clear, or replaces `current` by `ULONG_MAX`), so the measure
`65 * index + popcount current` strictly increases and fuel
`65 * bitmap_size + 66` is never exhausted; `none` marks the unreachable
fuel-0 exit. -/
def find_smallest_loop (nearby : Bool) :
    Nat → range_finder → selected_range → Option (Bool × range_finder)
  | 0, _, _ => none
  | fuel + 1, r, acc =>
    let p := find_next_range r
    if p.1 then
      let r1 := p.2
      let c := r1.selection
      if r1.size_required == c.size_available then some (true, r1)
      else
        let acc' := if c.size_available < acc.size_available then c else acc
        if nearby && decide (MAX_DISTANCE_TO_SEARCH_BEST_MATCH + r1.size_required < c.position) then
          -- We have gone too far? Stop being choosy
          some (true, if acc'.size_available < c.size_available then { r1 with selection := acc' } else r1)
        else
          find_smallest_loop nearby fuel r1 acc'
    else
      some (acc.size_available != U64M, { p.2 with selection := acc })

/-- `find_smallest_nearby_range` from `bitmap.c` lines 137-167: starts the
loop with `current = {0, SIZE_MAX}` and the fuel bound discussed at
`find_smallest_loop`. -/
def find_smallest_nearby_range (r : range_finder) (search_nearby : Bool) :
    Option (Bool × range_finder) :=
  find_smallest_loop search_nearby (65 * r.bitmap_size + 66) r ⟨0, U64M⟩

/-- `find_free_range_in_bitmap` from `bitmap.c` lines 169-200.  Returns
`some bit_pos` for the C `true` case, `none` for `false`; the `none` arm of
the inner match is the unreachable fuel exhaustion of the forward scan. -/
def find_free_range_in_bitmap (bitmap : List Nat) (bitmap_size size_required near_pos : Nat) :
    Option Nat :=
  if size_required = 0 ∨ bitmap_size ≤ near_pos / 64 then none
  else
    let high := near_pos / 64
    match find_smallest_nearby_range
      (init_range (bitmap.drop high) (bitmap_size - high) size_required) (high != 0) with
    | some (true, r) => some (r.selection.position + high * 64)
    | some (false, _) =>
      if high = 0 then none -- already scanned it all
      else
        -- we search _high_, couldn't find anything, maybe lower?
        let p := find_next_range (init_range bitmap high size_required)
        if p.1 then some p.2.selection.position else none
    | none => none

/-- Bit `i` of a bitmap viewed as a flat bit array: bit `i % 64` of word
`i / 64` (the addressing `find_free_range_in_bitmap`'s positions refer to). -/
def bitmap_bit (bitmap : List Nat) (i : Nat) : Bool :=
  (bitmap.getD (i / 64) 0).testBit (i % 64)

/-! ## Page metadata placement (`src/ch05/ch05.md`, Listing 5.3) -/

/-- `PAGE_SIZE` (8 KiB pages). -/
def PAGE_SIZE : Nat := 8192

/-- `PAGES_IN_METADATA_PAGE` from ch05 Listing 5.3: `1024 * 1024` pages per
metadata section. -/
def PAGES_IN_METADATA_PAGE : Nat := 1024 * 1024

/-- `sizeof(page_metadata_t)` = 16 bytes (ch05 Listing 5.4). -/
def METADATA_RECORD_SIZE : Nat := 16

/-- `get_metadata_page_offset` from ch05 Listing 5.3.  Returns
`some (metadata_page_num, metadata_index)` for the C `true` case and `none`
for the `false` (out-of-range) case. -/
def get_metadata_page_offset (total_number_of_pages page_num : Nat) : Option (Nat × Nat) :=
  if total_number_of_pages ≤ page_num then none
  else
    let metadata_page_end :=
      page_num + (PAGES_IN_METADATA_PAGE - page_num % PAGES_IN_METADATA_PAGE)
    let sb :=
      if metadata_page_end < total_number_of_pages then
        -- full metadata section
        (PAGES_IN_METADATA_PAGE * METADATA_RECORD_SIZE, metadata_page_end)
      else
        -- past the end of the file, so we need to compute the size of the remainder
        ((total_number_of_pages % PAGES_IN_METADATA_PAGE) * METADATA_RECORD_SIZE,
          total_number_of_pages)
    let section_size_pages :=
      sb.1 / PAGE_SIZE + (if sb.1 % PAGE_SIZE ≠ 0 then 1 else 0)
    let metadata_page_start := sb.2 - section_size_pages
    let index_of_metadata_in_section := page_num % PAGES_IN_METADATA_PAGE
    let index_of_page_in_section :=
      index_of_metadata_in_section / (PAGE_SIZE / METADATA_RECORD_SIZE)
    some (metadata_page_start + index_of_page_in_section,
      index_of_metadata_in_section % (PAGE_SIZE / METADATA_RECORD_SIZE))

/-! ## Page metadata records and the operations on them (`src/ch05/ch05.md`) -/

/-- `enum page_flags` from ch05 Listing 5.4. -/
def page_free : Nat := 0

/-- `page_single` flag. -/
def page_single : Nat := 1

/-- `page_overflow_first` flag. -/
def page_overflow_first : Nat := 2

/-- `page_overflow_rest` flag. -/
def page_overflow_rest : Nat := 4

/-- `page_metadata` flag. -/
def page_metadata : Nat := 8

/-- `page_metadata_t` from ch05 Listing 5.4: `overflow_size` is a `uint32_t`
and `flags` a one-byte bitset; the reserved padding carries no information. -/
structure page_metadata_t where
  overflow_size : Nat
  flags : Nat
deriving Repr, DecidableEq

/-- The per-page metadata map of a transaction's view of the file.
`modify_page_metadata`/`get_page_metadata` (ch05 Listing 5.6) compose
`get_metadata_page_offset` with page access; a state is modelled as the
composed map from page number to its 16-byte record. -/
abbrev metadata_map : Type := Nat → page_metadata_t

/-- `free_page` from ch05 Listing 5.8: look the record up through
`get_metadata_page_offset` (via `modify_page_metadata`), then
`memset(metadata, 0, sizeof(page_metadata_t))`.  The listing contains no
check of the record's flags before zeroing it ("no further changes"). -/
def free_page (total_number_of_pages : Nat) (md : metadata_map) (page_num : Nat) :
    Option metadata_map :=
  match get_metadata_page_offset total_number_of_pages page_num with
  | none => none
  | some _ => some (fun q => if q = page_num then ⟨0, 0⟩ else md q)

/-- Modelled from the spec: §4.E step 1, `required = max(1, ceil(page.overflow_size / 8192))`.
The ch05 Listing 5.7 excerpt uses `required_size` without showing its
computation; the loop itself is in the source. -/
def required_size_for (overflow_size : Nat) : Nat :=
  max 1 ((overflow_size + PAGE_SIZE - 1) / PAGE_SIZE)

/-- The record written for page `pos + j` by the marking loop of
`allocate_page` (ch05 Listing 5.7): `memset(metadata, 0, ...)` followed by
the three-way flag/size assignment.  `overflow_size - j * PAGE_SIZE` is
`uint32_t - size_t` arithmetic: computed mod `2^64`, truncated to `uint32_t`
on assignment. -/
def alloc_metadata_entry (required_size j overflow_size : Nat) : page_metadata_t :=
  if required_size = 1 then ⟨0, page_single⟩
  else if j = 0 then ⟨overflow_size % 2 ^ 32, page_overflow_first⟩
  else ⟨((overflow_size + U64 - (j * PAGE_SIZE) % U64) % U64) % 2 ^ 32, page_overflow_rest⟩

/-- The `for (size_t j = 0; j < required_size; j++)` loop of ch05 Listing
5.7, restricted to its metadata effect (the `mark_page_as_busy` bitmap
effect is a separate structure not needed for the metadata claims).
`k` counts the remaining iterations, `j` the next loop index. -/
def alloc_mark_loop (pos overflow_size required_size : Nat) :
    Nat → Nat → metadata_map → metadata_map
  | 0, _, md => md
  | k + 1, j, md =>
    alloc_mark_loop pos overflow_size required_size k (j + 1)
      (fun q => if q = pos + j then alloc_metadata_entry required_size j overflow_size else md q)

/-- Metadata state after a successful `allocate_page` of a value of
`overflow_size` bytes placed at page `pos` (ch05 Listing 5.7). -/
def allocate_mark_pages (md : metadata_map) (pos overflow_size : Nat) : metadata_map :=
  alloc_mark_loop pos overflow_size (required_size_for overflow_size)
    (required_size_for overflow_size) 0 md

/-! ## The thread-local error channel (`src/unnamed/part_000`, Listings 1.4-1.6) -/

/-- `MAX_ERRORS` from part_000 Listing 1.4. -/
def MAX_ERRORS : Nat := 64

/-- `MAX_ERRORS_MSG_BUFFER` from part_000 Listing 1.4. -/
def MAX_ERRORS_MSG_BUFFER : Nat := 2048

/-- The thread-local error-channel state of part_000 Listing 1.4:
`_errors_count`, `_errors_buffer_len`, `_out_of_memory`, the parallel code
array, and the message-pointer array (a stored pointer is modelled as the
offset into `_messages_buffer` it points at, `none` for the null pointer the
`oom:` label stores). -/
structure errors_state where
  errors_count : Nat
  errors_buffer_len : Nat
  out_of_memory : Nat
  errors_messages_codes : Nat → Int
  errors_messages_buffer : Nat → Option Nat

/-- `push_error_internal` from part_000 Listing 1.5.  The formatted length
produced by the `snprintf`/`vsnprintf` calls is a function of the caller's
file/function/format arguments only, so it enters the model as the input
`chars`; the source's two `chars == avail` checks both jump to the same
`oom:` label and are taken together. -/
def push_error_internal (s : errors_state) (code : Int) (chars : Nat) : errors_state :=
  if MAX_ERRORS ≤ s.errors_count + 1 then
    -- we have no space any longer for errors, ignoring
    { s with out_of_memory := s.out_of_memory ||| 1 }
  else
    let index := s.errors_count
    let s1 := { s with
      errors_count := index + 1
      errors_messages_codes := fun i => if i = index then code else s.errors_messages_codes i }
    let avail := MAX_ERRORS_MSG_BUFFER - s1.errors_buffer_len
    if chars = avail then
      { s1 with
        out_of_memory := s1.out_of_memory ||| 2
        errors_messages_buffer := fun i => if i = index then none else s1.errors_messages_buffer i }
    else
      { s1 with
        errors_buffer_len := s1.errors_buffer_len + chars + 1
        errors_messages_buffer := fun i =>
          if i = index then some s.errors_buffer_len else s1.errors_messages_buffer i }

/-! ## `close_file` (`src/ch02/ch02.md`, Listing 2.9) -/

/-- A platform file handle (`file_handle_t`): only the descriptor matters
for `close_file`. -/
structure file_handle_t where
  fd : Int

/-- `close_file` from ch02 Listing 2.9.  `close_ret` is the result of the
`close(handle->fd)` syscall and `code`/`chars` the `errno` and formatted
length fed to `push_error` on failure.  The C function falls off its end
when `close` succeeds (its return value is then unspecified), modelled as
`none`; the two explicit `return` statements give `some`. -/
def close_file (handle : Option file_handle_t) (close_ret : Int) (code : Int) (chars : Nat)
    (errs : errors_state) : Option Bool × errors_state :=
  match handle with
  | none => (some true, errs)
  | some _ =>
    if close_ret = -1 then (some false, push_error_internal errs code chars)
    else (none, errs)

/-! ## Specification-side definitions for the best-fit scan

`candidates` names the stream of ranges the scanner yields, and
`best_fit_spec` renders the spec's tie-break rules (§4.B, as amended) as a
fold over that stream, for comparison with `find_smallest_nearby_range`. -/

/-- The stream of candidate ranges yielded by successive `find_next_range`
calls on an evolving `range_finder`, cut off at `fuel` steps. -/
def candidates : Nat → range_finder → List selected_range
  | 0, _ => []
  | fuel + 1, r =>
    let p := find_next_range r
    if p.1 then p.2.selection :: candidates fuel p.2 else []

/-- Modelled from the spec §4.B (tie-breaks, as amended): fold over the
candidate stream.  An exact fit returns at once.  Otherwise the smallest
sufficient candidate seen so far is tracked, the earlier position winning
ties.  When `nearby` and a candidate lies beyond `bound` bits from the
start of the scan, the scan stops: the tracked best is returned unless the
boundary-crossing candidate's size ties it, in which case the crossing
candidate itself is returned.  When the stream ends the tracked best is
returned, `SIZE_MAX` meaning no candidate was ever seen. -/
def best_fit_spec (req bound : Nat) (nearby : Bool) :
    selected_range → List selected_range → Bool × selected_range
  | acc, [] => (acc.size_available != U64M, acc)
  | acc, c :: cs =>
    if req == c.size_available then (true, c)
    else
      let acc' := if c.size_available < acc.size_available then c else acc
      if nearby && decide (bound < c.position) then
        (true, if acc'.size_available < c.size_available then acc' else c)
      else best_fit_spec req bound nearby acc' cs

/-! ## Concrete inputs used by the claim evaluations -/

/-- 192-bit bitmap with bits 64 and 65 set: words `[0, 3, 0]`. -/
def c1_bitmap : List Nat := [0, 3, 0]

/-- 192-bit bitmap whose only clear bits are 0..63: words `[0, ~0, ~0]`. -/
def c3_bitmap : List Nat := [0, U64M, U64M]

/-- Bitmap with exactly two clear runs of length 3, at bits 65..67 and
132..134: words `[~0, ~0 ^ 0b1110, ~0 ^ 0b1110000]`. -/
def c4_bitmap : List Nat := [U64M, U64M - 14, U64M - 112]

/-- Scanner state used by the C4 witness. -/
def c4_witness_r : range_finder := init_range [0] 1 1

/-- Scanner result used by the C4 witness. -/
def c4_witness_out : Bool × range_finder :=
  (find_smallest_nearby_range c4_witness_r true).getD (false, init_range [] 0 0)

/-- 192-bit bitmap whose only clear bits are 0..63 (same words as
`c3_bitmap`, probed with a different `near_pos`). -/
def c9_bitmap : List Nat := [0, U64M, U64M]

/-- Scanner result used by the C9 witness. -/
def c9_witness_out : Bool × range_finder :=
  (find_smallest_nearby_range (init_range [0] 1 1) false).getD (false, init_range [] 0 0)

/-- Metadata map with page 5 an `overflow_rest` page, used by the C5
evaluation. -/
def c5_md : metadata_map :=
  fun q => if q = 5 then ⟨100, page_overflow_rest⟩ else ⟨0, page_free⟩

/-- All-free metadata map used by the C7 witness. -/
def c7_md0 : metadata_map := fun _ => ⟨0, page_free⟩

/-- Error-channel state with `count` recorded errors, an empty message
buffer and no overflow, used by the C8 evaluation. -/
def c8_state (count : Nat) : errors_state :=
  { errors_count := count
    errors_buffer_len := 0
    out_of_memory := 0
    errors_messages_codes := fun _ => 0
    errors_messages_buffer := fun _ => none }

/-! ## Preservation lemmas: the scan never changes `size_required` -/

theorem handle_zero_word_size_required (r : range_finder) :
    (handle_zero_word r).2.size_required = r.size_required := by
  simp only [handle_zero_word]
  split <;> rfl

theorem find_range_once_walk_size_required :
    ∀ (fuel bitset : Nat) (r : range_finder),
      (find_range_once_walk fuel bitset r).2.size_required = r.size_required := by
  intro fuel
  induction fuel with
  | zero => intro bitset r; rfl
  | succ n ih =>
    intro bitset r
    simp only [find_range_once_walk]
    split
    · exact handle_zero_word_size_required r
    · split
      · rfl
      · exact ih _ _

theorem find_range_once_size_required (r : range_finder) :
    (find_range_once r).2.size_required = r.size_required := by
  simp only [find_range_once]
  split
  · rfl
  · split
    · exact handle_zero_word_size_required r
    · exact find_range_once_walk_size_required 64 r.current r

theorem find_next_range_aux_size_required :
    ∀ (fuel : Nat) (r : range_finder),
      (find_next_range_aux fuel r).2.size_required = r.size_required := by
  intro fuel
  induction fuel with
  | zero => intro r; rfl
  | succ n ih =>
    intro r
    simp only [find_next_range_aux]
    have h1 := find_range_once_size_required r
    split
    · split
      · simpa using h1
      · split
        · rw [ih]; simpa using h1
        · simpa using h1
    · split
      · simpa using h1
      · rw [ih]; simpa using h1

theorem find_next_range_size_required (r : range_finder) :
    (find_next_range r).2.size_required = r.size_required :=
  find_next_range_aux_size_required (r.bitmap_size + 1) r

/-! ## The best-fit loop refines the spec-side fold -/

theorem find_smallest_loop_spec (nearby : Bool) :
    ∀ (fuel : Nat) (r : range_finder) (acc : selected_range) (out : Bool × range_finder),
      find_smallest_loop nearby fuel r acc = some out →
      (out.1, out.2.selection) =
        best_fit_spec r.size_required (MAX_DISTANCE_TO_SEARCH_BEST_MATCH + r.size_required)
          nearby acc (candidates fuel r) := by
  intro fuel
  induction fuel with
  | zero => intro r acc out h; exact absurd h (by simp [find_smallest_loop])
  | succ n ih =>
    intro r acc out h
    have hsz : (find_next_range r).2.size_required = r.size_required :=
      find_next_range_size_required r
    unfold find_smallest_loop at h
    unfold candidates
    by_cases hfound : (find_next_range r).1
    · simp only [hfound, if_true] at h ⊢
      set r1 := (find_next_range r).2 with hr1
      set c := r1.selection with hc
      by_cases hex : r1.size_required == c.size_available
      · simp only [hex, if_true] at h
        have hout : out = (true, r1) := by
          injection h with h'; exact h'.symm
        subst hout
        have : r.size_required == c.size_available := by
          rw [← hsz]; exact hex
        simp [best_fit_spec, this]
      · simp only [hex, if_false] at h
        by_cases hb :
            nearby && decide (MAX_DISTANCE_TO_SEARCH_BEST_MATCH + r1.size_required < c.position)
        · simp only [hb, if_true] at h
          have hex' : (r.size_required == c.size_available) = false := by
            rw [← hsz]; simpa using hex
          have hb' :
              (nearby && decide
                (MAX_DISTANCE_TO_SEARCH_BEST_MATCH + r.size_required < c.position)) = true := by
            rw [← hsz]; simpa using hb
          have hout := (Option.some.injEq _ _).mp h
          subst hout
          simp only [best_fit_spec, hex', Bool.false_eq_true, if_false, hb', if_true]
          split <;> (simp [hc]; try (split <;> rfl))
        · simp only [hb, if_false] at h
          have hrec := ih r1 (if c.size_available < acc.size_available then c else acc) out h
          rw [hrec, hsz]
          have hex' : (r.size_required == c.size_available) = false := by
            rw [← hsz]; simpa using hex
          have hb' :
              (nearby && decide
                (MAX_DISTANCE_TO_SEARCH_BEST_MATCH + r.size_required < c.position)) = false := by
            rw [← hsz]; simpa using hb
          simp only [best_fit_spec, hex', Bool.false_eq_true, if_false, hb']
    · simp only [hfound] at h ⊢
      simp only [Bool.false_eq_true, if_false] at h ⊢
      have hout := (Option.some.injEq _ _).mp h
      subst hout
      simp [best_fit_spec]

/-! ## The `allocate_page` marking loop, pointwise -/

theorem alloc_mark_loop_untouched (pos s required : Nat) :
    ∀ (k j q : Nat) (md : metadata_map), q < pos + j →
      alloc_mark_loop pos s required k j md q = md q := by
  intro k
  induction k with
  | zero => intro j q md _; rfl
  | succ n ih =>
    intro j q md hq
    simp only [alloc_mark_loop]
    rw [ih (j + 1) q _ (by omega)]
    show (if q = pos + j then alloc_metadata_entry required j s else md q) = md q
    exact if_neg (by omega)

theorem alloc_mark_loop_written (pos s required : Nat) :
    ∀ (k j t : Nat) (md : metadata_map), t < k →
      alloc_mark_loop pos s required k j md (pos + j + t)
        = alloc_metadata_entry required (j + t) s := by
  intro k
  induction k with
  | zero => intro j t md ht; exact absurd ht (Nat.not_lt_zero t)
  | succ n ih =>
    intro j t md ht
    simp only [alloc_mark_loop]
    cases t with
    | zero =>
      rw [alloc_mark_loop_untouched pos s required n (j + 1) (pos + j + 0) _ (by omega)]
      show (if pos + j + 0 = pos + j then alloc_metadata_entry required j s else md (pos + j + 0))
          = alloc_metadata_entry required (j + 0) s
      simp
    | succ t' =>
      have harg : pos + j + (t' + 1) = pos + (j + 1) + t' := by omega
      rw [harg, ih (j + 1) t' _ (by omega)]
      have hidx : j + 1 + t' = j + (t' + 1) := by omega
      rw [hidx]

/-! ## Claim theorems -/

/-- Claim C1, evaluation at the failing input: on the bitmap `[0, 3, 0]`
(bits 64 and 65 busy) with `size_required = 3` and `near_pos = 0`,
`find_free_range_in_bitmap` returns `true` with `bit_pos = 65`, yet bit 65
is set — the returned range is not clear, refuting soundness.  The slip: a
run ending exactly at a word boundary makes `find_next_range` skip the rest
of the word containing the terminating set bit, so the next candidate is
measured from a stale `previous_set_bit` and overlaps unscanned set bits. -/
theorem c1_soundness_failing_eval :
    find_free_range_in_bitmap c1_bitmap 3 3 0 = some 65
    ∧ bitmap_bit c1_bitmap 65 = true := by decide

/-- Claim C2, evaluation at the failing input: with
`total_number_of_pages = 1048576` (file length exactly one
`PAGES_IN_METADATA_PAGE` section) and `page_num = 0`, `range_end =
total_pages`, and the code's strict `<` sends it to the remainder branch:
`remainder = 0`, a zero-sized section, and `metadata_page_num = 1048576` —
a page outside the file — instead of the full-section answer `1046528` that
the same page gets as soon as the file is one page longer. -/
theorem c2_exact_multiple_failing_eval :
    get_metadata_page_offset 1048576 0 = some (1048576, 0)
    ∧ get_metadata_page_offset 1048577 0 = some (1046528, 0) := by decide

/-- Claim C3, evaluation at the failing input: on the bitmap
`[0, ~0, ~0]` with `size_required = 3` and `near_pos = 128` the forward
scan (word 2, all ones) finds nothing, and the backward scan over words
0..1 drops the 64-bit clear run at bits 0..63 — the run ends exactly at the
word boundary and the following word is all ones, so `find_next_range`
forgets the found selection and returns `false`.  The whole search returns
`false` although a sufficient run lies entirely within `[0, near_pos)`. -/
theorem c3_backward_scan_failing_eval :
    find_free_range_in_bitmap c3_bitmap 3 3 128 = none
    ∧ bitmap_bit c3_bitmap 0 = false ∧ bitmap_bit c3_bitmap 1 = false
    ∧ bitmap_bit c3_bitmap 2 = false := by decide

/-- Claim C4, counterexample: `c4_bitmap` has exactly two clear runs, bits
65..67 and 132..134, both of size 3; with `size_required = 2` and
`near_pos = 64` there is no exact fit, the second run crosses the locality
window, and the two sufficient candidates have equal size — the claim says
the earlier position (65) wins, but the code returns the later one, 132. -/
theorem c4_beyond_window_counterexample :
    find_free_range_in_bitmap c4_bitmap 3 2 64 = some 132
    ∧ bitmap_bit c4_bitmap 64 = true ∧ bitmap_bit c4_bitmap 65 = false
    ∧ bitmap_bit c4_bitmap 66 = false ∧ bitmap_bit c4_bitmap 67 = false
    ∧ bitmap_bit c4_bitmap 68 = true
    ∧ bitmap_bit c4_bitmap 131 = true ∧ bitmap_bit c4_bitmap 132 = false
    ∧ bitmap_bit c4_bitmap 133 = false ∧ bitmap_bit c4_bitmap 134 = false
    ∧ bitmap_bit c4_bitmap 135 = true := by decide

/-- Claim C4 (as amended): with the locality search active, the scan's
outcome is exactly the `best_fit_spec` fold over the candidate stream —
an exact fit returns at once; otherwise the smallest sufficient candidate
is tracked with the earlier position winning ties, and when a candidate
lies beyond `MAX_DISTANCE (64) + size_required` bits from the start of the
word containing `near_pos`, the tracked best is returned unless the
boundary-crossing candidate ties its size, in which case the crossing
(later) candidate's position is returned. -/
theorem c4_beyond_window_best_candidate (r : range_finder) (out : Bool × range_finder)
    (h : find_smallest_nearby_range r true = some out) :
    (out.1, out.2.selection) =
      best_fit_spec r.size_required (MAX_DISTANCE_TO_SEARCH_BEST_MATCH + r.size_required) true
        ⟨0, U64M⟩ (candidates (65 * r.bitmap_size + 66) r) :=
  find_smallest_loop_spec true (65 * r.bitmap_size + 66) r ⟨0, U64M⟩ out h

/-- Claim C4, witness: the amended theorem applied at a concrete scanner
state. -/
theorem c4_beyond_window_best_candidate_witness :
    (c4_witness_out.1, c4_witness_out.2.selection) =
      best_fit_spec c4_witness_r.size_required
        (MAX_DISTANCE_TO_SEARCH_BEST_MATCH + c4_witness_r.size_required) true
        ⟨0, U64M⟩ (candidates (65 * c4_witness_r.bitmap_size + 66) c4_witness_r) :=
  c4_beyond_window_best_candidate c4_witness_r c4_witness_out (by decide)

/-- Claim C5, evaluation at the failing input: page 5 of `c5_md` is an
`overflow_rest` page, yet `free_page` succeeds and zeroes its metadata
record — ch05 Listing 5.8 contains no flags check, so no invalid-state
error is raised and the state is changed. -/
theorem c5_free_page_overflow_rest_eval :
    c5_md 5 = ⟨100, page_overflow_rest⟩
    ∧ (free_page 16 c5_md 5).isSome = true
    ∧ ((free_page 16 c5_md 5).getD c5_md) 5 = ⟨0, 0⟩ := by decide

/-- Claim C6: the three concrete metadata lookups of scenarios S1, S3 and
S4 evaluate exactly as the spec states. -/
theorem c6_metadata_lookup_scenarios :
    get_metadata_page_offset 16 5 = some (15, 5)
    ∧ get_metadata_page_offset 1310720 35225 = some (1046596, 409)
    ∧ get_metadata_page_offset 1310720 1189786 = some (1310483, 410) := by decide

/-- Claim C7: after the `allocate_page` marking loop places a value of
`overflow_size` bytes needing `required_size_for overflow_size ≥ 2` pages at
page `pos`, page `pos` carries `page_overflow_first` with the full user
length, and every later page `pos + j` of the run carries
`page_overflow_rest` with `overflow_size − j · PAGE_SIZE` remaining
bytes. -/
theorem c7_overflow_run_metadata (md : metadata_map) (pos overflow_size : Nat)
    (h32 : overflow_size < 2 ^ 32) (h2 : 2 ≤ required_size_for overflow_size) :
    allocate_mark_pages md pos overflow_size pos
      = ⟨overflow_size, page_overflow_first⟩
    ∧ ∀ j, 1 ≤ j → j < required_size_for overflow_size →
        allocate_mark_pages md pos overflow_size (pos + j)
          = ⟨overflow_size - j * PAGE_SIZE, page_overflow_rest⟩ := by
  have hU : U64 = 18446744073709551616 := by norm_num [U64]
  have hP : (2 : Nat) ^ 32 = 4294967296 := by norm_num
  rw [hP] at h32
  have hn1 : required_size_for overflow_size ≠ 1 := by omega
  have hmax : max 1 ((overflow_size + PAGE_SIZE - 1) / PAGE_SIZE)
      = (overflow_size + PAGE_SIZE - 1) / PAGE_SIZE := by
    rcases max_choice 1 ((overflow_size + PAGE_SIZE - 1) / PAGE_SIZE) with hm | hm
    · exfalso
      have := h2
      simp only [required_size_for] at this
      omega
    · exact hm
  have hdivle : ((overflow_size + PAGE_SIZE - 1) / PAGE_SIZE) * PAGE_SIZE
      ≤ overflow_size + PAGE_SIZE - 1 := Nat.div_mul_le_self _ _
  constructor
  · have h0 := alloc_mark_loop_written pos overflow_size (required_size_for overflow_size)
      (required_size_for overflow_size) 0 0 md (by omega)
    have heq : allocate_mark_pages md pos overflow_size pos
        = alloc_metadata_entry (required_size_for overflow_size) 0 overflow_size := by
      unfold allocate_mark_pages
      simpa using h0
    rw [heq]
    unfold alloc_metadata_entry
    rw [if_neg hn1, if_pos rfl, hP, Nat.mod_eq_of_lt h32]
  · intro j hj1 hjn
    have h0 := alloc_mark_loop_written pos overflow_size (required_size_for overflow_size)
      (required_size_for overflow_size) 0 j md (by omega)
    have heq : allocate_mark_pages md pos overflow_size (pos + j)
        = alloc_metadata_entry (required_size_for overflow_size) j overflow_size := by
      unfold allocate_mark_pages
      simpa using h0
    rw [heq]
    unfold alloc_metadata_entry
    rw [if_neg hn1, if_neg (by omega)]
    have hjs : j * PAGE_SIZE < overflow_size := by
      simp only [required_size_for, hmax] at hjn
      simp only [PAGE_SIZE] at hjn hdivle ⊢
      have hj8 : (j + 1) * 8192 ≤ ((overflow_size + 8192 - 1) / 8192) * 8192 :=
        Nat.mul_le_mul_right 8192 hjn
      omega
    simp only [page_metadata_t.mk.injEq]
    refine ⟨?_, trivial⟩
    rw [hU, hP]
    simp only [PAGE_SIZE] at hjs ⊢
    omega

/-- Claim C7, witness: the overflow invariant at `overflow_size = 8193`,
which needs exactly two pages; the second page's record holds the single
remaining byte. -/
theorem c7_overflow_run_metadata_witness :
    required_size_for 8193 = 2
    ∧ allocate_mark_pages c7_md0 3 8193 3 = ⟨8193, page_overflow_first⟩
    ∧ allocate_mark_pages c7_md0 3 8193 (3 + 1) = ⟨8193 - 1 * PAGE_SIZE, page_overflow_rest⟩ :=
  ⟨by decide,
    (c7_overflow_run_metadata c7_md0 3 8193 (by decide) (by decide)).1,
    (c7_overflow_run_metadata c7_md0 3 8193 (by decide) (by decide)).2 1 (by decide) (by decide)⟩

/-- Claim C8, evaluation at the failing input: `push_error_internal` drops
a push made while only 63 entries are recorded (count stays 63, the
overflow flag is set), because its guard reads `_errors_count + 1 >=
MAX_ERRORS`; a push at 62 entries is still stored.  The channel therefore
holds at most 63 entries, not the documented 64. -/
theorem c8_capacity_off_by_one_eval :
    (push_error_internal (c8_state 63) 7 10).errors_count = 63
    ∧ (push_error_internal (c8_state 63) 7 10).out_of_memory = 1
    ∧ (push_error_internal (c8_state 62) 7 10).errors_count = 63
    ∧ (push_error_internal (c8_state 62) 7 10).out_of_memory = 0 := by
  refine ⟨rfl, rfl, rfl, rfl⟩

/-- Claim C9, counterexample: on `[0, ~0, ~0]` with `size_required = 3`
and `near_pos = 0` the scan returns `false`, although the clear run at bits
0..63 is a sufficient run (indeed the smallest sufficient run anywhere in
the bitmap) — the run ends exactly at a word boundary and is dropped. -/
theorem c9_whole_scan_counterexample :
    find_free_range_in_bitmap c9_bitmap 3 3 0 = none
    ∧ bitmap_bit c9_bitmap 0 = false ∧ bitmap_bit c9_bitmap 1 = false
    ∧ bitmap_bit c9_bitmap 2 = false ∧ bitmap_bit c9_bitmap 64 = true := by decide

/-- Claim C9 (as amended): when `near_pos < 64` the scan starts at word 0,
the locality window never cuts it short (`search_nearby` is false), and the
result is the `best_fit_spec` fold with the boundary exit disabled over the
candidate stream: the first exact-fit candidate if one is yielded,
otherwise the smallest (earliest among equal sizes) candidate yielded —
noting that candidates can omit or overstate actual bitmap runs when a run
meets a 64-bit word boundary. -/
theorem c9_scan_from_word_zero (bitmap : List Nat)
    (bitmap_size size_required near_pos : Nat) (out : Bool × range_finder)
    (hnear : near_pos < 64) (hreq : size_required ≠ 0) (hsize : 0 < bitmap_size)
    (h : find_smallest_nearby_range (init_range bitmap bitmap_size size_required) false
      = some out) :
    find_free_range_in_bitmap bitmap bitmap_size size_required near_pos =
      (if out.1 then some out.2.selection.position else none)
    ∧ (out.1, out.2.selection) =
      best_fit_spec size_required (MAX_DISTANCE_TO_SEARCH_BEST_MATCH + size_required) false
        ⟨0, U64M⟩
        (candidates (65 * bitmap_size + 66) (init_range bitmap bitmap_size size_required)) := by
  have hdiv : near_pos / 64 = 0 := Nat.div_eq_of_lt hnear
  constructor
  · unfold find_free_range_in_bitmap
    rw [hdiv, if_neg (by omega)]
    simp only [List.drop_zero, Nat.sub_zero, bne_self_eq_false]
    rw [h]
    obtain ⟨b, rr⟩ := out
    cases b
    · simp
    · simp
  · have hs := find_smallest_loop_spec false (65 * bitmap_size + 66)
      (init_range bitmap bitmap_size size_required) ⟨0, U64M⟩ out h
    simpa using hs

/-- Claim C9, witness: the amended theorem applied to the one-word bitmap
`[0]` with `size_required = 1` and `near_pos = 0`. -/
theorem c9_scan_from_word_zero_witness :
    find_free_range_in_bitmap [0] 1 1 0 =
      (if c9_witness_out.1 then some c9_witness_out.2.selection.position else none)
    ∧ (c9_witness_out.1, c9_witness_out.2.selection) =
      best_fit_spec 1 (MAX_DISTANCE_TO_SEARCH_BEST_MATCH + 1) false ⟨0, U64M⟩
        (candidates (65 * 1 + 66) (init_range [0] 1 1)) :=
  c9_scan_from_word_zero [0] 1 1 0 c9_witness_out (by decide) (by decide) (by decide)
    (by decide)

/-- Claim C10: `close_file` on a `NULL` handle returns `true` and pushes
nothing onto the error channel, for every channel state and whatever the
`close` syscall would have returned. -/
theorem c10_close_file_null (errs : errors_state) (close_ret code : Int) (chars : Nat) :
    close_file none close_ret code chars errs = (some true, errs) := rfl

end Gavran
